import Mathlib

/-!
Verification of the landing-assist autopilot controller
(`src/landing_assist/script.js`) against its specification.

The mutable fields of the `LandingAssistSystem` class become a Lean
structure `SysState`; every command handler and timer callback of the
class becomes a pure function on that structure.  Numbers are modelled
as exact rationals; the JavaScript division special values needed for
the ETA computation are modelled explicitly by `JsVal`.  Each call to
`Math.random()` becomes an explicit parameter `r` constrained to
`0 ≤ r ≤ 1`, matching the source expressions such as
`(Math.random() - 0.5) * 2` literally.
-/

namespace LandingAssist

attribute [local semireducible] Rat.mul Rat.add Rat.sub Rat.inv

/-- The values taken by `this.flightStatus` in the source:
`'飞行中'` (flying), `'起飞中'` (taking off), `'自动降落中'` (auto landing),
`'已降落'` (landed), `'手动模式'` (manual mode). -/
inductive FlightStatus where
  | flying
  | takingOff
  | autoLanding
  | landed
  | manualMode
deriving DecidableEq, Repr

/-- The mutable per-instance state of `LandingAssistSystem`:
`selectedTarget`, `currentPosition.{x,y}`, `altitude`, `speed`,
`battery`, `flightStatus`, `isLanding`, `isManualMode`. -/
structure SysState where
  selectedTarget : Option (ℚ × ℚ)
  posX : ℚ
  posY : ℚ
  altitude : ℚ
  speed : ℚ
  battery : ℚ
  flightStatus : FlightStatus
  isLanding : Bool
  isManualMode : Bool
deriving DecidableEq, Repr

/-- The constructor defaults: position (400, 300), altitude 120,
speed 5.2, battery 85, status flying, no target, not landing, not
manual. -/
def initState : SysState :=
  { selectedTarget := none
    posX := 400
    posY := 300
    altitude := 120
    speed := 52 / 10
    battery := 85
    flightStatus := .flying
    isLanding := false
    isManualMode := false }

/-- `selectLandingTarget(x, y)`: unconditionally records the target;
the source performs no bounds or state check inside this method. -/
def selectLandingTarget (x y : ℚ) (s : SysState) : SysState :=
  { s with selectedTarget := some (x, y) }

/-- The camera-overlay click handler: returns early when
`this.isManualMode || this.isLanding`, otherwise calls
`selectLandingTarget`. -/
def overlayClick (x y : ℚ) (s : SysState) : SysState :=
  if s.isManualMode || s.isLanding then s else selectLandingTarget x y s

/-- The only coordinate bounds appearing in the source: the drift tick
clamps positions to `[10, 790] × [10, 590]`. -/
def inViewport (x y : ℚ) : Prop :=
  10 ≤ x ∧ x ≤ 790 ∧ 10 ≤ y ∧ y ≤ 590

instance (x y : ℚ) : Decidable (inViewport x y) := by
  unfold inViewport; infer_instance

/-- `takeoff()`: returns early if `isLanding`; otherwise sets status to
taking-off (the delayed completion is `takeoffComplete`). -/
def takeoff (s : SysState) : SysState :=
  if s.isLanding then s else { s with flightStatus := .takingOff }

/-- The `setTimeout` body inside `takeoff()`: after the simulated 3 s
delay, sets status flying, altitude 120 and recenters the position. -/
def takeoffComplete (s : SysState) : SysState :=
  { s with flightStatus := .flying, altitude := 120, posX := 400, posY := 300 }

/-- `startLanding()`: returns early when no target is selected or
already landing; otherwise sets `isLanding` and the landing status
(the spawned descent interval is modelled separately). -/
def startLanding (s : SysState) : SysState :=
  if s.selectedTarget.isNone || s.isLanding then s
  else { s with isLanding := true, flightStatus := .autoLanding }

/-- `completeLanding()`: clears `isLanding`, sets status landed,
altitude 0, speed 0 and clears the selected target.  Position and
battery are untouched. -/
def completeLanding (s : SysState) : SysState :=
  { s with isLanding := false, flightStatus := .landed,
           altitude := 0, speed := 0, selectedTarget := none }

/-- `cancelLanding()`: returns early when not landing; otherwise clears
`isLanding` and restores the flying status.  The selected target and
the running descent interval are untouched. -/
def cancelLanding (s : SysState) : SysState :=
  if !s.isLanding then s
  else { s with isLanding := false, flightStatus := .flying }

/-- `toggleManualMode()`: flips `isManualMode` and then overwrites
`flightStatus` with manual-mode when entering and flying when
leaving. -/
def toggleManualMode (s : SysState) : SysState :=
  if !s.isManualMode then
    { s with isManualMode := true, flightStatus := .manualMode }
  else
    { s with isManualMode := false, flightStatus := .flying }

/-- One firing of the descent `setInterval` from `simulateLanding()`.
`step` is the closure-local counter before the increment; `r1, r2` are
the two `Math.random()` draws of this tick.  Returns `none` when the
source would throw (reading `this.selectedTarget.x` with a null
target); otherwise the updated state and `some step` while the
interval stays alive, or `none` for the step once `completeLanding`
has run and the interval cleared itself. -/
def landingTick (r1 r2 : ℚ) (s : SysState) (step : ℕ) :
    Option (SysState × Option ℕ) :=
  let step' := step + 1
  if 100 ≤ step' then some (completeLanding s, none)
  else
    match s.selectedTarget with
    | none => none
    | some (tx, ty) =>
      let alt := 120 - (step' : ℚ) * (12 / 10)
      let sp := 52 / 10 - (step' : ℚ) * (2 / 100)
      let dx := (tx - s.posX) / (100 - (step' : ℚ))
      let dy := (ty - s.posY) / (100 - (step' : ℚ))
      some ({ s with altitude := alt, speed := sp,
                     posX := s.posX + dx + (r1 - 1 / 2) * 2,
                     posY := s.posY + dy + (r2 - 1 / 2) * 2 },
            some step')

/-- Fires the descent interval once on a (state, live step counter)
pair; a cleared interval (`none` counter) fires no more. -/
def tickOnce (r : ℚ × ℚ) : SysState × Option ℕ → Option (SysState × Option ℕ)
  | (s, none) => some (s, none)
  | (s, some k) => landingTick r.1 r.2 s k

/-- Fires the descent interval `n` times; tick number `i` (1-based)
uses the random draws `r i`. -/
def runTicks (r : ℕ → ℚ × ℚ) (p : SysState × Option ℕ) : ℕ → Option (SysState × Option ℕ)
  | 0 => some p
  | n + 1 =>
    match runTicks r p n with
    | none => none
    | some q => tickOnce (r (n + 1)) q

/-- Clamp of the source pattern `Math.max(lo, Math.min(hi, v))`. -/
def clamp (lo hi v : ℚ) : ℚ := max lo (min hi v)

/-- One firing of the 100 ms drift `setInterval` in
`startSimulation()`: early return while landing or manual; position
drift of `(Math.random() - 0.5) * 0.5` per axis clamped to the
viewport; then, only while the status is flying, altitude and speed
perturbations clamped to `[115, 125]` and `[4.5, 6.0]`. -/
def driftTick (r1 r2 r3 r4 : ℚ) (s : SysState) : SysState :=
  if s.isLanding || s.isManualMode then s
  else
    let x := clamp 10 790 (s.posX + (r1 - 1 / 2) * (1 / 2))
    let y := clamp 10 590 (s.posY + (r2 - 1 / 2) * (1 / 2))
    let s1 := { s with posX := x, posY := y }
    if s1.flightStatus = .flying then
      { s1 with altitude := clamp 115 125 (s1.altitude + (r3 - 1 / 2) * (2 / 10)),
                speed := clamp (45 / 10) 6 (s1.speed + (r4 - 1 / 2) * (1 / 10)) }
    else s1

/-- One firing of the 5 s battery `setInterval` in
`startSimulation()`: while not landed,
`battery = Math.max(0, battery - 0.01)`. -/
def batteryTick (s : SysState) : SysState :=
  if s.flightStatus ≠ .landed then
    { s with battery := max 0 (s.battery - 1 / 100) }
  else s

/-- A JavaScript number as produced by the ETA division: a finite
value, positive infinity, or NaN. -/
inductive JsVal where
  | fin (q : ℚ)
  | inf
  | nan
deriving DecidableEq, Repr

/-- JavaScript division `d / s` for a non-negative numerator:
division by zero yields `Infinity` (or `NaN` when `0 / 0`). -/
def jsDiv (d s : ℚ) : JsVal :=
  if s = 0 then (if d = 0 then .nan else .inf) else .fin (d / s)

/-- The JavaScript comparison `eta > 0`: true for `Infinity`, false
for `NaN`. -/
def jsGtZero : JsVal → Bool
  | .fin q => decide (0 < q)
  | .inf => true
  | .nan => false

/-- The ETA display logic of `updateLandingInfo()`:
`eta > 0 ? round(eta) + 's' : '--'`.  `some v` means the number `v`
is rendered with an `s` suffix; `none` means the `--` sentinel. -/
def etaDisplay (distance speed : ℚ) : Option JsVal :=
  let eta := jsDiv distance speed
  if jsGtZero eta then some eta else none

/-- The safety-level classification of `updateLandingInfo()`:
`altitude < 20 → high`, `else altitude < 50 → medium`, `else low`. -/
def safetyLevel (altitude : ℚ) : String :=
  if altitude < 20 then "high"
  else if altitude < 50 then "medium"
  else "low"

/-- The safety level as computed from the system state: it reads only
`this.altitude`. -/
def infoSafety (s : SysState) : String := safetyLevel s.altitude

/-- A world pairing the system state with the step counters of every
descent interval currently scheduled: `startLanding()` calls
`simulateLanding()`, which creates a fresh interval, and nothing but
the interval completing itself ever clears one. -/
structure World where
  st : SysState
  timers : List ℕ
deriving DecidableEq, Repr

/-- `startLanding()` at the world level: on success also spawns a new
descent interval with its counter at 0. -/
def startLandingW (w : World) : World :=
  if w.st.selectedTarget.isNone || w.st.isLanding then w
  else { st := startLanding w.st, timers := w.timers ++ [0] }

/-- `cancelLanding()` at the world level: the source never clears the
descent interval (its handle is local to `simulateLanding`), so the
timer list is untouched. -/
def cancelLandingW (w : World) : World :=
  { w with st := cancelLanding w.st }

/-- The kinematic descent data of a descent-interval result: position,
altitude, speed, the landing flag and the live step counter. -/
def descentData (p : SysState × Option ℕ) : ℚ × ℚ × ℚ × ℚ × Bool × Option ℕ :=
  (p.1.posX, p.1.posY, p.1.altitude, p.1.speed, p.1.isLanding, p.2)

/-- Folds a list of drift ticks (each entry the four random draws of
one firing) over the state. -/
def applyDrifts (l : List (ℚ × ℚ × ℚ × ℚ)) (s : SysState) : SysState :=
  l.foldl (fun s r => driftTick r.1 r.2.1 r.2.2.1 r.2.2.2 s) s

/-- Random draws of exactly 1/2, making every jitter term of the
source vanish. -/
def zeroJitter : ℕ → ℚ × ℚ := fun _ => (1 / 2, 1 / 2)

/-- A state in mid-landing: target (400, 300) selected, descent
running. -/
def stateLanding : SysState :=
  { selectedTarget := some (400, 300)
    posX := 400
    posY := 300
    altitude := 120
    speed := 52 / 10
    battery := 85
    flightStatus := .autoLanding
    isLanding := true
    isManualMode := false }

/-- A mid-landing state in which the operator has toggled manual mode
(the source allows the toggle at any time). -/
def stateManualLanding : SysState :=
  { stateLanding with isManualMode := true, flightStatus := .manualMode }

/-- Select the target (500, 400) from the initial state and start the
landing. -/
def demoStart : SysState := startLanding (selectLandingTarget 500 400 initState)

/-- Run five descent ticks from the start of the demo landing, then
issue `cancelLanding()`.  The descent interval of the source survives
the cancel (its handle is local to `simulateLanding`), so the live
counter is carried over unchanged. -/
def cancelDemo : Option (SysState × Option ℕ) :=
  (runTicks zeroJitter (demoStart, some 0) 5).map fun p => (cancelLanding p.1, p.2)

/-- One further firing of the stale descent interval after the
cancel. -/
def afterCancelTick : Option (SysState × Option ℕ) :=
  cancelDemo.bind (tickOnce (zeroJitter 6))

/-- The stale descent interval left to run 95 further firings after
the cancel. -/
def staleFinal : Option (SysState × Option ℕ) :=
  cancelDemo.bind fun p => runTicks zeroJitter p 95

/-- The demo world: fresh system with the target (500, 400) selected
and no descent interval scheduled yet. -/
def demoWorld : World :=
  { st := selectLandingTarget 500 400 initState, timers := [] }

/-- Claim C4: the safety level is exactly the three-tier altitude
classification — below 20 is high, from 20 up to below 50 is medium,
from 50 up is low; 19.99 is high, 20 and 49.99 are medium, 50 is low;
and the classification depends on the altitude alone. -/
theorem safetyLevel_classification :
    (∀ a : ℚ, a < 20 → safetyLevel a = "high") ∧
    (∀ a : ℚ, 20 ≤ a → a < 50 → safetyLevel a = "medium") ∧
    (∀ a : ℚ, 50 ≤ a → safetyLevel a = "low") ∧
    safetyLevel (1999 / 100) = "high" ∧
    safetyLevel 20 = "medium" ∧
    safetyLevel (4999 / 100) = "medium" ∧
    safetyLevel 50 = "low" ∧
    (∀ s1 s2 : SysState, s1.altitude = s2.altitude →
      infoSafety s1 = infoSafety s2) := by
  refine ⟨?_, ?_, ?_, by decide, by decide, by decide, by decide, ?_⟩
  · intro a ha
    simp [safetyLevel, ha]
  · intro a h20 h50
    simp [safetyLevel, not_lt.mpr h20, h50]
  · intro a h50
    have h1 : ¬ a < 20 := not_lt.mpr (by linarith)
    have h2 : ¬ a < 50 := not_lt.mpr h50
    simp [safetyLevel, h1, h2]
  · intro s1 s2 h
    simp [infoSafety, h]

/-- Witness for C4 at concrete altitudes discharging every
hypothesis. -/
theorem safetyLevel_classification_witness :
    safetyLevel 10 = "high" ∧ safetyLevel 30 = "medium" ∧
    safetyLevel 60 = "low" ∧ infoSafety initState = infoSafety initState :=
  ⟨safetyLevel_classification.1 10 (by norm_num),
   safetyLevel_classification.2.1 30 (by norm_num) (by norm_num),
   safetyLevel_classification.2.2.1 60 (by norm_num),
   safetyLevel_classification.2.2.2.2.2.2.2 initState initState rfl⟩

/-- Claim C2: the ETA computation is `distance / speed` for positive
speed and positive distance (distance 100, speed 10 gives 10), and it
never throws; but at speed 0 with distance 100 the JavaScript division
yields `Infinity`, which passes the `eta > 0` guard, so the code
renders the non-sentinel text `Infinitys` instead of the `--`
sentinel the claim requires. -/
theorem eta_speed_zero_bug :
    etaDisplay 100 10 = some (.fin 10) ∧
    etaDisplay 100 0 = some .inf ∧
    etaDisplay 100 0 ≠ none := by
  refine ⟨by decide, by decide, by decide⟩

/-- Claim C5: each command issued in a state where it is illegal —
`startLanding()` with no target, `startLanding()` while landing,
`takeoff()` while landing, `cancelLanding()` while not landing — is a
total function returning the state unchanged. -/
theorem illegal_commands_noop (s : SysState) :
    (s.selectedTarget = none → startLanding s = s) ∧
    (s.isLanding = true → startLanding s = s) ∧
    (s.isLanding = true → takeoff s = s) ∧
    (s.isLanding = false → cancelLanding s = s) := by
  refine ⟨fun h => ?_, fun h => ?_, fun h => ?_, fun h => ?_⟩ <;>
    simp [startLanding, takeoff, cancelLanding, h]

/-- Witness for C5: the four guards discharged on concrete states (the
fresh state has no target and is not landing; `stateLanding` is mid
landing). -/
theorem illegal_commands_noop_witness :
    startLanding initState = initState ∧
    cancelLanding initState = initState ∧
    startLanding stateLanding = stateLanding ∧
    takeoff stateLanding = stateLanding :=
  ⟨(illegal_commands_noop initState).1 rfl,
   (illegal_commands_noop initState).2.2.2 rfl,
   (illegal_commands_noop stateLanding).2.1 rfl,
   (illegal_commands_noop stateLanding).2.2.1 rfl⟩

/-- Claim C6: `selectLandingTarget` performs no bounds check — the
out-of-viewport coordinates (-50, 900) are recorded verbatim as the
target, both through the raw method and through the overlay click
path, where the claim requires the selection to be rejected with the
target unchanged; the click path also records a target while the
vehicle is landed, not flying. -/
theorem selectTarget_out_of_bounds_bug :
    ¬ inViewport (-50) 900 ∧
    initState.selectedTarget = none ∧
    (selectLandingTarget (-50) 900 initState).selectedTarget = some (-50, 900) ∧
    (overlayClick (-50) 900 initState).selectedTarget = some (-50, 900) ∧
    (overlayClick 5 5 { initState with flightStatus := .landed }).selectedTarget
      = some (5, 5) := by
  refine ⟨by decide, rfl, by decide, by decide, by decide⟩

/-- Claim C7 counterexample: toggling manual mode twice from the
landed state leaves the flight status flying — the source overwrites
`flightStatus` on each toggle, so the operational mode is not
preserved (landed becomes flying). -/
theorem toggleManual_changes_mode_cex :
    ({ initState with flightStatus := .landed } : SysState).flightStatus
        = .landed ∧
    (toggleManualMode { initState with flightStatus := .landed }).flightStatus
        = .manualMode ∧
    (toggleManualMode (toggleManualMode
        { initState with flightStatus := .landed })).flightStatus = .flying ∧
    FlightStatus.flying ≠ .landed := by
  refine ⟨rfl, by decide, by decide, by decide⟩

/-- Claim C7 as amended: `toggleManualMode()` flips `isManualMode` and
leaves every telemetry field except `flightStatus` unchanged, but it
overwrites `flightStatus` to manual-mode when entering and to flying
when leaving, regardless of the previous status.  While manual is
active, the click-to-select path and the drift tick are suppressed,
and a descent-interval firing computes the same kinematic data after
the toggle as before it. -/
theorem toggleManual_amended (s : SysState) :
    (toggleManualMode s).isManualMode = !s.isManualMode ∧
    (toggleManualMode s).isLanding = s.isLanding ∧
    (toggleManualMode s).selectedTarget = s.selectedTarget ∧
    (toggleManualMode s).posX = s.posX ∧
    (toggleManualMode s).posY = s.posY ∧
    (toggleManualMode s).altitude = s.altitude ∧
    (toggleManualMode s).speed = s.speed ∧
    (toggleManualMode s).battery = s.battery ∧
    (toggleManualMode s).flightStatus
      = (if s.isManualMode then FlightStatus.flying else .manualMode) ∧
    (s.isManualMode = true → ∀ x y, overlayClick x y s = s) ∧
    (s.isManualMode = true → ∀ r1 r2 r3 r4, driftTick r1 r2 r3 r4 s = s) ∧
    (∀ r1 r2 k, (landingTick r1 r2 (toggleManualMode s) k).map descentData
      = (landingTick r1 r2 s k).map descentData) := by
  have htm : ∀ s' : SysState, (toggleManualMode s').selectedTarget = s'.selectedTarget ∧
      (toggleManualMode s').posX = s'.posX ∧ (toggleManualMode s').posY = s'.posY ∧
      (toggleManualMode s').altitude = s'.altitude ∧
      (toggleManualMode s').speed = s'.speed ∧
      (toggleManualMode s').isLanding = s'.isLanding := by
    intro s'
    cases h : s'.isManualMode <;> simp [toggleManualMode, h]
  refine ⟨?_, ?_, ?_, ?_, ?_, ?_, ?_, ?_, ?_, ?_, ?_, ?_⟩
  · cases h : s.isManualMode <;> simp [toggleManualMode, h]
  · exact (htm s).2.2.2.2.2
  · exact (htm s).1
  · exact (htm s).2.1
  · exact (htm s).2.2.1
  · exact (htm s).2.2.2.1
  · exact (htm s).2.2.2.2.1
  · cases h : s.isManualMode <;> simp [toggleManualMode, h]
  · cases h : s.isManualMode <;> simp [toggleManualMode, h]
  · intro h x y
    simp [overlayClick, h]
  · intro h r1 r2 r3 r4
    simp [driftTick, h]
  · intro r1 r2 k
    obtain ⟨h1, h2, h3, h4, h5, h6⟩ := htm s
    by_cases hk : 100 ≤ k + 1
    · simp [landingTick, hk, descentData, completeLanding, h2, h3]
    · rw [landingTick, landingTick]
      simp only [hk, if_false, h1, h2, h3]
      cases s.selectedTarget with
      | none => rfl
      | some t => simp [descentData, h2, h3, h6]

/-- Witness for C7: the suppression guards of the amended claim
discharged on the concrete manual mid-landing state. -/
theorem toggleManual_amended_witness :
    overlayClick 1 2 stateManualLanding = stateManualLanding ∧
    driftTick 0 0 0 0 stateManualLanding = stateManualLanding ∧
    (landingTick (1 / 2) (1 / 2) (toggleManualMode stateManualLanding) 5).map
        descentData
      = (landingTick (1 / 2) (1 / 2) stateManualLanding 5).map descentData :=
  ⟨(toggleManual_amended stateManualLanding).2.2.2.2.2.2.2.2.2.1 rfl 1 2,
   (toggleManual_amended stateManualLanding).2.2.2.2.2.2.2.2.2.2.1 rfl 0 0 0 0,
   (toggleManual_amended stateManualLanding).2.2.2.2.2.2.2.2.2.2.2 (1 / 2) (1 / 2) 5⟩

/-- A clamped value lies between the bounds. -/
theorem clamp_mem (lo hi v : ℚ) (h : lo ≤ hi) :
    lo ≤ clamp lo hi v ∧ clamp lo hi v ≤ hi := by
  constructor
  · exact le_max_left _ _
  · exact max_le h (min_le_left _ _)

/-- Claim C9: the battery tick decrements by exactly 0.01 and clamps
at 0 whenever the vehicle is not landed, is the identity when landed,
keeps the battery within `[0, 100]`, never increases it, and no other
operation of the system touches the battery at all. -/
theorem battery_monotone (s : SysState) :
    (s.flightStatus ≠ .landed →
      (batteryTick s).battery = max 0 (s.battery - 1 / 100)) ∧
    (s.flightStatus = .landed → batteryTick s = s) ∧
    (0 ≤ s.battery → (batteryTick s).battery ≤ s.battery) ∧
    (0 ≤ s.battery → 0 ≤ (batteryTick s).battery) ∧
    (s.battery ≤ 100 → (batteryTick s).battery ≤ 100) ∧
    (takeoff s).battery = s.battery ∧
    (takeoffComplete s).battery = s.battery ∧
    (startLanding s).battery = s.battery ∧
    (cancelLanding s).battery = s.battery ∧
    (completeLanding s).battery = s.battery ∧
    (toggleManualMode s).battery = s.battery ∧
    (∀ x y, (selectLandingTarget x y s).battery = s.battery) ∧
    (∀ x y, (overlayClick x y s).battery = s.battery) ∧
    (∀ r1 r2 r3 r4, (driftTick r1 r2 r3 r4 s).battery = s.battery) ∧
    (∀ r1 r2 k p, landingTick r1 r2 s k = some p → p.1.battery = s.battery) := by
  refine ⟨fun h => ?_, fun h => ?_, fun h => ?_, fun h => ?_, fun h => ?_,
    ?_, rfl, ?_, ?_, rfl, ?_, fun x y => rfl, fun x y => ?_,
    fun r1 r2 r3 r4 => ?_, fun r1 r2 k p hp => ?_⟩
  · simp [batteryTick, h]
  · simp [batteryTick, h]
  · by_cases hs : s.flightStatus = .landed
    · simp [batteryTick, hs]
    · simp only [batteryTick, hs, ne_eq, not_false_iff, if_true]
      exact max_le h (by linarith)
  · by_cases hs : s.flightStatus = .landed
    · simpa [batteryTick, hs] using h
    · simp only [batteryTick, hs, ne_eq, not_false_iff, if_true]
      exact le_max_left _ _
  · by_cases hs : s.flightStatus = .landed
    · simpa [batteryTick, hs] using h
    · simp only [batteryTick, hs, ne_eq, not_false_iff, if_true]
      exact max_le (by norm_num) (by linarith)
  · by_cases hl : s.isLanding <;> simp [takeoff, hl]
  · by_cases hl : s.selectedTarget.isNone || s.isLanding <;> simp [startLanding, hl]
  · by_cases hl : s.isLanding <;> simp [cancelLanding, hl]
  · by_cases hm : s.isManualMode <;> simp [toggleManualMode, hm]
  · by_cases hg : s.isManualMode || s.isLanding <;> simp [overlayClick, hg, selectLandingTarget]
  · by_cases hg : s.isLanding || s.isManualMode
    · simp [driftTick, hg]
    · by_cases hf : s.flightStatus = .flying <;> simp [driftTick, hg, hf]
  · by_cases hk : 100 ≤ k + 1
    · simp only [landingTick, hk, if_true, Option.some.injEq] at hp
      rw [← hp]
      rfl
    · rw [landingTick] at hp
      simp only [hk, if_false] at hp
      cases ht : s.selectedTarget with
      | none => rw [ht] at hp; exact absurd hp (by simp)
      | some t =>
        rw [ht] at hp
        obtain ⟨tx, ty⟩ := t
        simp only [Option.some.injEq] at hp
        rw [← hp]

/-- Witness for C9: the hypotheses discharged on the fresh state (not
landed, battery 85), on a landed state, and on a concrete firing of
the completing descent tick. -/
theorem battery_monotone_witness :
    (batteryTick initState).battery = max 0 (initState.battery - 1 / 100) ∧
    batteryTick { initState with flightStatus := .landed }
      = { initState with flightStatus := .landed } ∧
    (batteryTick initState).battery ≤ initState.battery ∧
    0 ≤ (batteryTick initState).battery ∧
    (batteryTick initState).battery ≤ 100 ∧
    (completeLanding stateLanding, (none : Option ℕ)).1.battery
      = stateLanding.battery :=
  ⟨(battery_monotone initState).1 (by decide),
   (battery_monotone { initState with flightStatus := .landed }).2.1 rfl,
   (battery_monotone initState).2.2.1 (by norm_num [initState]),
   (battery_monotone initState).2.2.2.1 (by norm_num [initState]),
   (battery_monotone initState).2.2.2.2.1 (by norm_num [initState]),
   (battery_monotone stateLanding).2.2.2.2.2.2.2.2.2.2.2.2.2.2
     (1 / 2) (1 / 2) 99 (completeLanding stateLanding, none) (by decide)⟩

/-- Claim C10: `cancelLanding()` during a landing leaves the selected
target exactly as it was, and a subsequent `startLanding()` succeeds
precisely when a target is still set — with the retained target, no
reselection needed. -/
theorem cancel_retains_target (s : SysState) (h : s.isLanding = true) :
    (cancelLanding s).selectedTarget = s.selectedTarget ∧
    (cancelLanding s).isLanding = false ∧
    (∀ t, s.selectedTarget = some t →
      (startLanding (cancelLanding s)).isLanding = true ∧
      (startLanding (cancelLanding s)).flightStatus = .autoLanding ∧
      (startLanding (cancelLanding s)).selectedTarget = some t) ∧
    (s.selectedTarget = none → startLanding (cancelLanding s) = cancelLanding s) := by
  have hc : cancelLanding s
      = { s with isLanding := false, flightStatus := .flying } := by
    simp [cancelLanding, h]
  refine ⟨by rw [hc], by rw [hc], fun t ht => ?_, fun ht => ?_⟩
  · rw [hc]
    refine ⟨?_, ?_, ?_⟩ <;> simp [startLanding, ht]
  · rw [hc]
    simp [startLanding, ht]

/-- Witness for C10: cancel from the concrete mid-landing state with
target (400, 300), and from a mid-landing state whose target is
absent. -/
theorem cancel_retains_target_witness :
    (cancelLanding stateLanding).selectedTarget = stateLanding.selectedTarget ∧
    (startLanding (cancelLanding stateLanding)).isLanding = true ∧
    startLanding (cancelLanding { stateLanding with selectedTarget := none })
      = cancelLanding { stateLanding with selectedTarget := none } :=
  ⟨(cancel_retains_target stateLanding rfl).1,
   ((cancel_retains_target stateLanding rfl).2.2.1 (400, 300) rfl).1,
   (cancel_retains_target { stateLanding with selectedTarget := none } rfl).2.2.2 rfl⟩

/-- A drift tick always leaves the position inside the viewport:
either it is the early-return no-op, or the new position is clamped
to `[10, 790] × [10, 590]`. -/
theorem driftTick_preserves_viewport (r1 r2 r3 r4 : ℚ) (s : SysState)
    (h : inViewport s.posX s.posY) :
    inViewport (driftTick r1 r2 r3 r4 s).posX (driftTick r1 r2 r3 r4 s).posY := by
  by_cases hg : s.isLanding || s.isManualMode
  · simpa [driftTick, hg] using h
  · have hx := clamp_mem 10 790 (s.posX + (r1 - 1 / 2) * (1 / 2)) (by norm_num)
    have hy := clamp_mem 10 590 (s.posY + (r2 - 1 / 2) * (1 / 2)) (by norm_num)
    by_cases hf : s.flightStatus = .flying <;>
      simp only [driftTick, hg, if_false, Bool.false_eq_true, hf, if_true] <;>
      exact ⟨hx.1, hx.2, hy.1, hy.2⟩

/-- Claim C8: in the flying, auto, not-landing state a drift tick
perturbs each position axis by at most 0.5 units before clamping to
the viewport, leaves altitude in `[115, 125]` and speed in
`[4.5, 6.0]`; the altitude and speed perturbations happen only while
the status is the baseline flying one; and any number of drift ticks
keeps the position inside the viewport. -/
theorem idle_drift_bounded :
    (∀ (s : SysState) (r1 r2 r3 r4 : ℚ), s.flightStatus = .flying →
      s.isManualMode = false → s.isLanding = false →
      0 ≤ r1 → r1 ≤ 1 → 0 ≤ r2 → r2 ≤ 1 → 0 ≤ r3 → r3 ≤ 1 → 0 ≤ r4 → r4 ≤ 1 →
      (∃ dx dy, |dx| ≤ 1 / 2 ∧ |dy| ≤ 1 / 2 ∧
        (driftTick r1 r2 r3 r4 s).posX = clamp 10 790 (s.posX + dx) ∧
        (driftTick r1 r2 r3 r4 s).posY = clamp 10 590 (s.posY + dy)) ∧
      inViewport (driftTick r1 r2 r3 r4 s).posX (driftTick r1 r2 r3 r4 s).posY ∧
      115 ≤ (driftTick r1 r2 r3 r4 s).altitude ∧
      (driftTick r1 r2 r3 r4 s).altitude ≤ 125 ∧
      45 / 10 ≤ (driftTick r1 r2 r3 r4 s).speed ∧
      (driftTick r1 r2 r3 r4 s).speed ≤ 6) ∧
    (∀ (s : SysState) (r1 r2 r3 r4 : ℚ), s.flightStatus ≠ .flying →
      (driftTick r1 r2 r3 r4 s).altitude = s.altitude ∧
      (driftTick r1 r2 r3 r4 s).speed = s.speed) ∧
    (∀ (l : List (ℚ × ℚ × ℚ × ℚ)) (s : SysState),
      inViewport s.posX s.posY →
      inViewport (applyDrifts l s).posX (applyDrifts l s).posY) := by
  refine ⟨?_, ?_, ?_⟩
  · intro s r1 r2 r3 r4 hf hm hl h1 h2 h3 h4 h5 h6 h7 h8
    have hg : (s.isLanding || s.isManualMode) = false := by rw [hl, hm]; rfl
    have halt := clamp_mem 115 125 (s.altitude + (r3 - 1 / 2) * (2 / 10)) (by norm_num)
    have hsp := clamp_mem (45 / 10) 6 (s.speed + (r4 - 1 / 2) * (1 / 10)) (by norm_num)
    have hx := clamp_mem 10 790 (s.posX + (r1 - 1 / 2) * (1 / 2)) (by norm_num)
    have hy := clamp_mem 10 590 (s.posY + (r2 - 1 / 2) * (1 / 2)) (by norm_num)
    simp only [driftTick, hg, Bool.false_eq_true, if_false, hf, if_true]
    refine ⟨⟨(r1 - 1 / 2) * (1 / 2), (r2 - 1 / 2) * (1 / 2), ?_, ?_, rfl, rfl⟩,
      ⟨hx.1, hx.2, hy.1, hy.2⟩, halt.1, halt.2, hsp.1, hsp.2⟩
    · rw [abs_le]
      constructor <;> nlinarith
    · rw [abs_le]
      constructor <;> nlinarith
  · intro s r1 r2 r3 r4 hf
    by_cases hg : s.isLanding || s.isManualMode
    · simp [driftTick, hg]
    · simp [driftTick, hg, hf]
  · intro l
    induction l with
    | nil => intro s h; simpa [applyDrifts] using h
    | cons a t ih =>
      intro s h
      have h1 := driftTick_preserves_viewport a.1 a.2.1 a.2.2.1 a.2.2.2 s h
      simpa [applyDrifts] using ih _ h1

/-- Witness for C8: all hypotheses discharged on the fresh flying
state with random draws 1/2, on a landed-status state, and on a
one-tick list. -/
theorem idle_drift_bounded_witness :
    ((∃ dx dy, |dx| ≤ 1 / 2 ∧ |dy| ≤ 1 / 2 ∧
        (driftTick (1/2) (1/2) (1/2) (1/2) initState).posX
          = clamp 10 790 (initState.posX + dx) ∧
        (driftTick (1/2) (1/2) (1/2) (1/2) initState).posY
          = clamp 10 590 (initState.posY + dy)) ∧
      inViewport (driftTick (1/2) (1/2) (1/2) (1/2) initState).posX
        (driftTick (1/2) (1/2) (1/2) (1/2) initState).posY ∧
      115 ≤ (driftTick (1/2) (1/2) (1/2) (1/2) initState).altitude ∧
      (driftTick (1/2) (1/2) (1/2) (1/2) initState).altitude ≤ 125 ∧
      45 / 10 ≤ (driftTick (1/2) (1/2) (1/2) (1/2) initState).speed ∧
      (driftTick (1/2) (1/2) (1/2) (1/2) initState).speed ≤ 6) ∧
    ((driftTick 0 0 0 0 { initState with flightStatus := .landed }).altitude
      = ({ initState with flightStatus := .landed } : SysState).altitude) ∧
    inViewport (applyDrifts [(1/2, 1/2, 1/2, 1/2)] initState).posX
      (applyDrifts [(1/2, 1/2, 1/2, 1/2)] initState).posY :=
  ⟨idle_drift_bounded.1 initState (1/2) (1/2) (1/2) (1/2) rfl rfl rfl
      (by norm_num) (by norm_num) (by norm_num) (by norm_num)
      (by norm_num) (by norm_num) (by norm_num) (by norm_num),
   (idle_drift_bounded.2.1 { initState with flightStatus := .landed }
      0 0 0 0 (by decide)).1,
   idle_drift_bounded.2.2 [(1/2, 1/2, 1/2, 1/2)] initState (by norm_num [initState, inViewport])⟩

/-- Claim C1: cancelling mid-descent does return the mode to flying,
but the descent interval survives the cancel: its counter is still
live (the progress is not cleared), its next firing overwrites the
altitude (114 becomes 112.8), letting it run on it eventually calls
`completeLanding()` and forces the landed state, and starting a new
landing after the cancel leaves two descent intervals scheduled at
once. -/
theorem cancelled_descent_timer_bug :
    (cancelDemo.map fun p => (p.1.isLanding, p.1.flightStatus, p.2))
      = some (false, FlightStatus.flying, some 5) ∧
    (cancelDemo.map fun p => p.1.altitude) = some 114 ∧
    (afterCancelTick.map fun p => (p.1.altitude, p.2))
      = some (564 / 5, some 6) ∧
    (564 / 5 : ℚ) ≠ 114 ∧
    (staleFinal.map fun p => (p.1.flightStatus, p.1.isLanding, p.2))
      = some (FlightStatus.landed, false, none) ∧
    (startLandingW (cancelLandingW (startLandingW demoWorld))).timers = [0, 0] := by
  refine ⟨by decide, by decide, by decide, by decide, by decide, by decide⟩

/-- Up to tick 99 the descent interval stays alive and preserves the
selected target, the landing flag and the landing status. -/
theorem descent_invariant (s1 : SysState) (tx ty : ℚ) (r : ℕ → ℚ × ℚ)
    (ht : s1.selectedTarget = some (tx, ty)) (hf : s1.flightStatus = .autoLanding)
    (hl : s1.isLanding = true) :
    ∀ k, k ≤ 99 →
      ∃ sk, runTicks r (s1, some 0) k = some (sk, some k) ∧
        sk.selectedTarget = some (tx, ty) ∧
        sk.flightStatus = .autoLanding ∧ sk.isLanding = true := by
  intro k
  induction k with
  | zero => exact fun _ => ⟨s1, rfl, ht, hf, hl⟩
  | succ k ih =>
    intro hk99
    obtain ⟨sk, hrun, h1, h2, h3⟩ := ih (by omega)
    have hlt : ¬ (100 ≤ k + 1) := by omega
    refine ⟨{ sk with
        altitude := 120 - ((k + 1 : ℕ) : ℚ) * (12 / 10),
        speed := 52 / 10 - ((k + 1 : ℕ) : ℚ) * (2 / 100),
        posX := sk.posX + (tx - sk.posX) / (100 - ((k + 1 : ℕ) : ℚ))
          + ((r (k + 1)).1 - 1 / 2) * 2,
        posY := sk.posY + (ty - sk.posY) / (100 - ((k + 1 : ℕ) : ℚ))
          + ((r (k + 1)).2 - 1 / 2) * 2 }, ?_, h1, h2, h3⟩
    rw [runTicks, hrun]
    show landingTick (r (k + 1)).1 (r (k + 1)).2 sk k = _
    rw [landingTick]
    simp only [hlt, if_false, h1]

/-- Claim C3: from any state with a selected target and landing not
yet in progress, starting the landing and letting the descent interval
fire 100 times ends with altitude exactly 0, speed exactly 0, the
landed status, the target cleared, and the position within the final
jitter bound (one unit per axis) of the target; after 99 firings the
status is still the landing one, so the transition to landed fires
exactly when the counter reaches 100. -/
theorem descent_completes (s : SysState) (tx ty : ℚ) (r : ℕ → ℚ × ℚ)
    (ht : s.selectedTarget = some (tx, ty)) (hl : s.isLanding = false)
    (hr : ∀ k, 0 ≤ (r k).1 ∧ (r k).1 ≤ 1 ∧ 0 ≤ (r k).2 ∧ (r k).2 ≤ 1) :
    ∃ s99 sF,
      runTicks r (startLanding s, some 0) 99 = some (s99, some 99) ∧
      s99.flightStatus = .autoLanding ∧ s99.isLanding = true ∧
      runTicks r (startLanding s, some 0) 100 = some (sF, none) ∧
      sF = completeLanding s99 ∧
      sF.altitude = 0 ∧ sF.speed = 0 ∧ sF.flightStatus = .landed ∧
      sF.selectedTarget = none ∧ sF.isLanding = false ∧
      |sF.posX - tx| ≤ 1 ∧ |sF.posY - ty| ≤ 1 := by
  have hs1 : startLanding s
      = { s with isLanding := true, flightStatus := .autoLanding } := by
    simp [startLanding, ht, hl]
  have ht1 : (startLanding s).selectedTarget = some (tx, ty) := by rw [hs1]; exact ht
  have hf1 : (startLanding s).flightStatus = .autoLanding := by rw [hs1]
  have hl1 : (startLanding s).isLanding = true := by rw [hs1]
  obtain ⟨s98, hrun98, h1, h2, h3⟩ :=
    descent_invariant (startLanding s) tx ty r ht1 hf1 hl1 98 (by omega)
  have hcast : (100 : ℚ) - ((98 + 1 : ℕ) : ℚ) = 1 := by push_cast; norm_num
  have hpx : s98.posX + (tx - s98.posX) / (100 - ((98 + 1 : ℕ) : ℚ))
      + ((r 99).1 - 1 / 2) * 2 = tx + ((r 99).1 - 1 / 2) * 2 := by
    rw [hcast]; ring
  have hpy : s98.posY + (ty - s98.posY) / (100 - ((98 + 1 : ℕ) : ℚ))
      + ((r 99).2 - 1 / 2) * 2 = ty + ((r 99).2 - 1 / 2) * 2 := by
    rw [hcast]; ring
  have hlt99 : ¬ (100 ≤ 98 + 1) := by omega
  set s99 : SysState := { s98 with
      altitude := 120 - ((98 + 1 : ℕ) : ℚ) * (12 / 10),
      speed := 52 / 10 - ((98 + 1 : ℕ) : ℚ) * (2 / 100),
      posX := tx + ((r 99).1 - 1 / 2) * 2,
      posY := ty + ((r 99).2 - 1 / 2) * 2 } with hs99
  have hrun99 : runTicks r (startLanding s, some 0) 99 = some (s99, some 99) := by
    show runTicks r (startLanding s, some 0) (98 + 1) = _
    rw [runTicks, hrun98]
    show landingTick (r 99).1 (r 99).2 s98 98 = _
    rw [landingTick]
    simp only [hlt99, if_false, h1, hpx, hpy]
    rw [hs99, h1]
  have hrun100 : runTicks r (startLanding s, some 0) 100
      = some (completeLanding s99, none) := by
    show runTicks r (startLanding s, some 0) (99 + 1) = _
    rw [runTicks, hrun99]
    show landingTick (r 100).1 (r 100).2 s99 99 = _
    rw [landingTick]
    simp only [le_refl, if_true]
  refine ⟨s99, completeLanding s99, hrun99, by rw [hs99]; exact h2,
    by rw [hs99]; exact h3, hrun100, rfl, rfl, rfl, rfl, rfl, rfl, ?_, ?_⟩
  · have hr99 := hr 99
    have hpos : (completeLanding s99).posX = tx + ((r 99).1 - 1 / 2) * 2 := by
      rw [hs99]; rfl
    rw [hpos]
    rw [show tx + ((r 99).1 - 1 / 2) * 2 - tx = ((r 99).1 - 1 / 2) * 2 by ring]
    rw [abs_le]
    constructor <;> nlinarith [hr99.1, hr99.2.1]
  · have hr99 := hr 99
    have hpos : (completeLanding s99).posY = ty + ((r 99).2 - 1 / 2) * 2 := by
      rw [hs99]; rfl
    rw [hpos]
    rw [show ty + ((r 99).2 - 1 / 2) * 2 - ty = ((r 99).2 - 1 / 2) * 2 by ring]
    rw [abs_le]
    constructor <;> nlinarith [hr99.2.2.1, hr99.2.2.2]

/-- Witness for C3: the descent run from the fresh state with target
(500, 400) and all random draws 1/2. -/
theorem descent_completes_witness :
    ∃ s99 sF,
      runTicks zeroJitter
        (startLanding (selectLandingTarget 500 400 initState), some 0) 99
        = some (s99, some 99) ∧
      s99.flightStatus = .autoLanding ∧ s99.isLanding = true ∧
      runTicks zeroJitter
        (startLanding (selectLandingTarget 500 400 initState), some 0) 100
        = some (sF, none) ∧
      sF = completeLanding s99 ∧
      sF.altitude = 0 ∧ sF.speed = 0 ∧ sF.flightStatus = .landed ∧
      sF.selectedTarget = none ∧ sF.isLanding = false ∧
      |sF.posX - 500| ≤ 1 ∧ |sF.posY - 400| ≤ 1 :=
  descent_completes (selectLandingTarget 500 400 initState) 500 400 zeroJitter
    rfl rfl (fun _ => by norm_num [zeroJitter])

end LandingAssist
